import Mathlib

/-!
# Verification of the SpyceOfficial assistant's dispatch and persistence pipeline

A shallow embedding in Lean 4 of `src/main.py`: the filename sanitizer,
the artifact store (`save_text`), the completion-client adapter
(`ask_model`) and the five mode pipelines (Build, Modify, Edit, Ask,
Voice), together with proofs of the specified properties.

Strings are Lean `String`s; the filesystem is modelled as an association
list from paths to file contents, where a write conses a new entry (the
most recent write shadows older ones) and a remove deletes every entry at
the given path.  Remote calls (completion, transcription) and filesystem
write failures are modelled as explicit parameters of the pipeline
functions, since the pipelines treat them as opaque effects.
-/

namespace Spyce

/-- The whitespace characters stripped by Python's `str.strip()`
(restricted to the ASCII range, which is what the app's inputs use). -/
def pyWhitespace (c : Char) : Bool :=
  c == ' ' || c == '\t' || c == '\n' || c == '\r' || c == '\x0b' || c == '\x0c'

/-- Strip leading and trailing whitespace from a list of characters,
as Python's `str.strip()` does. -/
def stripChars (l : List Char) : List Char :=
  ((l.dropWhile pyWhitespace).reverse.dropWhile pyWhitespace).reverse

/-- Python's `s.strip()` on our `String`s. -/
def pyStrip (s : String) : String :=
  ⟨stripChars s.data⟩

/-- The character class kept by `sanitize_filename`'s regex
`[^a-zA-Z0-9_\-\.]`: ASCII letters, digits, underscore, hyphen, dot. -/
def allowedChar (c : Char) : Bool :=
  ('a' ≤ c && c ≤ 'z') || ('A' ≤ c && c ≤ 'Z') || ('0' ≤ c && c ≤ '9') ||
    c == '_' || c == '-' || c == '.'

/-- `sanitize_filename` on character lists:
strip; empty becomes `app.py`; every disallowed character becomes `_`;
append `.py` unless already a suffix. -/
def sanitizeChars (l : List Char) : List Char :=
  if stripChars l = [] then "app.py".data
  else if ".py".data <:+ (stripChars l).map (fun c => if allowedChar c then c else '_') then
    (stripChars l).map (fun c => if allowedChar c then c else '_')
  else
    (stripChars l).map (fun c => if allowedChar c then c else '_') ++ ".py".data

/-- `sanitize_filename` from `src/main.py` (line 54). -/
def sanitize_filename (name : String) : String :=
  ⟨sanitizeChars name.data⟩

/-- The filesystem model: an association list from paths to contents.
The most recent write is at the head. -/
def FS := List (String × String)

/-- Writing a file: `open(path, "w")` followed by `f.write(content)`. -/
def fsWrite (fs : FS) (path content : String) : FS :=
  (path, content) :: fs

/-- Reading the file at `path`, if present. -/
def fsRead (fs : FS) (path : String) : Option String :=
  ((fs : List (String × String)).find? (fun e => e.1 == path)).map (·.2)

/-- `os.remove(path)`: afterwards no file exists at `path`. -/
def fsRemove (fs : FS) (path : String) : FS :=
  (fs : List (String × String)).filter (fun e => !(e.1 == path))

/-- The content root `PROJECTS_DIR` (`src/main.py` line 48), relative to
the base directory. -/
def PROJECTS_DIR : String := "projects"

/-- `os.path.join` for the one-level joins the app performs. -/
def joinPath (dir name : String) : String :=
  dir ++ "/" ++ name

/-- The path `save_text` builds for a formatted timestamp `ts` and a
requested name (`src/main.py` line 66). -/
def savePath (ts filename : String) : String :=
  joinPath PROJECTS_DIR (ts ++ "_" ++ sanitize_filename filename)

/-- The result of `save_text`: the returned path and the filesystem
after the write. -/
structure SaveResult where
  path : String
  fs : FS

/-- `save_text` from `src/main.py` (line 63), with the formatted
timestamp `datetime.now().strftime("%Y%m%d_%H%M%S")` passed in
explicitly. -/
def save_text (fs : FS) (ts : String) (content filename : String) : SaveResult :=
  let path := savePath ts filename
  ⟨path, fsWrite fs path content⟩

/-- A wall-clock instant at second precision, the value
`datetime.now()` is formatted from. -/
structure Timestamp where
  year : Nat
  month : Nat
  day : Nat
  hour : Nat
  minute : Nat
  second : Nat
  deriving Repr, DecidableEq

/-- The ASCII digit character for `n % 10`. -/
def digitChar (n : Nat) : Char :=
  Char.ofNat (48 + n % 10)

/-- `n` rendered as exactly `w` decimal digits, most significant first,
zero padded — how `strftime` renders each zero-padded field. -/
def padDigits : Nat → Nat → List Char
  | 0, _ => []
  | w + 1, n => digitChar (n / 10 ^ w) :: padDigits w n

/-- The fields of a `datetime.now()` value lie in `strftime`'s
zero-padded widths: four digits for the year, two for the rest. -/
def Timestamp.Valid (t : Timestamp) : Prop :=
  t.year < 10000 ∧ t.month < 100 ∧ t.day < 100 ∧
    t.hour < 100 ∧ t.minute < 100 ∧ t.second < 100

instance (t : Timestamp) : Decidable t.Valid := by
  unfold Timestamp.Valid; infer_instance

/-- `datetime.now().strftime("%Y%m%d_%H%M%S")` (`src/main.py`
line 64). -/
def strftime (t : Timestamp) : String :=
  ⟨padDigits 4 t.year ++ padDigits 2 t.month ++ padDigits 2 t.day ++ ['_'] ++
    padDigits 2 t.hour ++ padDigits 2 t.minute ++ padDigits 2 t.second⟩

/-- The outcome of one remote chat-completion request, as seen by
`ask_model`'s `try` block: either the text
`resp.choices[0].message.content`, or the exception text `str(e)` of
whatever failure occurred (network, auth, quota, malformed response). -/
inductive RemoteResult where
  | ok (text : String)
  | err (msg : String)
  deriving Repr, DecidableEq

/-- `ask_model` from `src/main.py` (line 71): on success the reply is
stripped; on any exception the marked error string is returned and
nothing is raised (the function is total). -/
def ask_model (r : RemoteResult) : String :=
  match r with
  | .ok t => pyStrip t
  | .err e => "⚠️ Error: " ++ e

/-- One entry of `st.session_state.history`
(`{mode, prompt, filename, path, time}`, `src/main.py` line 84). -/
structure HistoryRecord where
  mode : String
  prompt : String
  filename : String
  path : String
  time : String
  deriving Repr, DecidableEq

/-- The mutable state a pipeline run touches: the projects directory and
the session history list (appended at the tail, as Python's
`list.append` does). -/
structure AppState where
  fs : FS
  history : List HistoryRecord

/-- How a pipeline run ended, as shown to the user. -/
inductive Outcome where
  /-- `st.warning(msg)` followed by `st.stop()`: validation rejected the
  run before any remote call. -/
  | rejected (warning : String)
  /-- `st.error(msg)`: a caught exception aborted the run. -/
  | failed (errMsg : String)
  /-- The run completed; the displayed text and the saved path. -/
  | done (shown : String) (path : String)
  /-- Ask mode only: the answer was displayed but no save was attempted
  because the target filename was empty. -/
  | shownOnly (shown : String)
  deriving Repr, DecidableEq

/-- The Build Code pipeline (`src/main.py` lines 171–198), for one click
of "Generate Code".  `remote` is the completion call's outcome, `ts` the
timestamp formatted into the filename, `time` the one recorded in
history, and `saveErr` is `some e` when `save_text`'s write raises an
OS error with text `e`. -/
def tab_build (st : AppState) (prompt filename : String) (remote : RemoteResult)
    (ts time : String) (saveErr : Option String) : AppState × Outcome :=
  if pyStrip prompt = "" then
    (st, .rejected "Please describe what to build.")
  else
    let code := ask_model remote
    match saveErr with
    | some e => (st, .failed ("❌ Failed to save file: " ++ e))
    | none =>
      let r := save_text st.fs ts code filename
      (⟨r.fs, st.history ++ [⟨"Build Code", prompt, filename, r.path, time⟩]⟩,
        .done code r.path)

/-- The Modify Code pipeline (`src/main.py` lines 222–252), for one
click of "Apply Changes". -/
def tab_modify (st : AppState) (base_code change_request filename2 : String)
    (remote : RemoteResult) (ts time : String) (saveErr : Option String) :
    AppState × Outcome :=
  if pyStrip base_code = "" then
    (st, .rejected "Please paste the code to modify.")
  else if pyStrip change_request = "" then
    (st, .rejected "Please describe the changes you want.")
  else
    let updated := ask_model remote
    match saveErr with
    | some e => (st, .failed ("❌ Failed to save file: " ++ e))
    | none =>
      let r := save_text st.fs ts updated filename2
      (⟨r.fs, st.history ++ [⟨"Modify Code", change_request, filename2, r.path, time⟩]⟩,
        .done updated r.path)

/-- The Edit Anything pipeline (`src/main.py` lines 276–306), for one
click of "Apply Edit". -/
def tab_edit (st : AppState) (content edit_request filename3 : String)
    (remote : RemoteResult) (ts time : String) (saveErr : Option String) :
    AppState × Outcome :=
  if pyStrip content = "" then
    (st, .rejected "Please paste the content to edit.")
  else if pyStrip edit_request = "" then
    (st, .rejected "Please describe the edit you want.")
  else
    let edited := ask_model remote
    match saveErr with
    | some e => (st, .failed ("❌ Failed to save edited content: " ++ e))
    | none =>
      let r := save_text st.fs ts edited filename3
      (⟨r.fs, st.history ++ [⟨"Edit Anything", edit_request, filename3, r.path, time⟩]⟩,
        .done edited r.path)

/-- The Ask Anything pipeline (`src/main.py` lines 325–353), for one
click of "Get Answer".  Persistence is attempted only when the target
filename is non-blank (`if filename4.strip():`, line 340). -/
def tab_ask (st : AppState) (question filename4 : String) (remote : RemoteResult)
    (ts time : String) (saveErr : Option String) : AppState × Outcome :=
  if pyStrip question = "" then
    (st, .rejected "Please enter your question.")
  else
    let answer := ask_model remote
    if pyStrip filename4 = "" then
      (st, .shownOnly answer)
    else
      match saveErr with
      | some e => (st, .failed ("❌ Failed to save answer: " ++ e))
      | none =>
        let r := save_text st.fs ts answer filename4
        (⟨r.fs, st.history ++ [⟨"Ask Anything", question, filename4, r.path, time⟩]⟩,
          .done answer r.path)

/-- The temporary path the Voice pipeline writes the uploaded audio to
(`src/main.py` line 371). -/
def tempPath (audioName : String) : String :=
  joinPath PROJECTS_DIR ("temp_" ++ audioName)

/-- The Voice pipeline (`src/main.py` lines 364–412), for one click of
"Transcribe & Answer".  `audio` is the uploaded file (name, bytes) if
any; `transcription` is the remote transcription outcome (`.error e`
when `client.audio.transcriptions.create` raises); `remote` is the
second, completion call; `removeFails` is true when `os.remove` of the
temporary copy raises (the exception is swallowed by the inner
`try`/`except: pass`). -/
def tab_voice (st : AppState) (audio : Option (String × String)) (filename5 : String)
    (transcription : Except String String) (remote : RemoteResult)
    (ts time : String) (saveErr : Option String) (removeFails : Bool) :
    AppState × Outcome :=
  match audio with
  | none => (st, .rejected "Please upload an audio file.")
  | some (audioName, audioBytes) =>
    let temp := tempPath audioName
    let fs1 := fsWrite st.fs temp audioBytes
    match transcription with
    | .error e => (⟨fs1, st.history⟩, .failed ("❌ Voice processing failed: " ++ e))
    | .ok raw =>
      let transcript := pyStrip raw
      let reply := ask_model remote
      let combined := "Transcript:\n" ++ transcript ++ "\n\nResponse:\n" ++ reply
      match saveErr with
      | some e => (⟨fs1, st.history⟩, .failed ("❌ Voice processing failed: " ++ e))
      | none =>
        let r := save_text fs1 ts combined filename5
        let fs2 := if removeFails then r.fs else fsRemove r.fs temp
        (⟨fs2, st.history ++ [⟨"Voice", transcript, filename5, r.path, time⟩]⟩,
          .done combined r.path)

/-! ## Lemmas about the filename sanitizer -/

theorem dropWhile_eq_self_of_all {p : Char → Bool} (l : List Char)
    (h : ∀ c ∈ l, p c = false) : l.dropWhile p = l := by
  cases l with
  | nil => rfl
  | cons a t =>
    rw [List.dropWhile_cons, h a (List.mem_cons_self a t)]
    simp

theorem stripChars_eq_self_of_all {l : List Char}
    (h : ∀ c ∈ l, pyWhitespace c = false) : stripChars l = l := by
  unfold stripChars
  rw [dropWhile_eq_self_of_all l h,
    dropWhile_eq_self_of_all l.reverse (fun c hc => h c (List.mem_reverse.mp hc)),
    List.reverse_reverse]

theorem allowedChar_not_ws {c : Char} (h : allowedChar c = true) :
    pyWhitespace c = false := by
  by_contra hw
  rw [Bool.not_eq_false] at hw
  unfold pyWhitespace at hw
  simp only [Bool.or_eq_true, beq_iff_eq] at hw
  rcases hw with ((((rfl | rfl) | rfl) | rfl) | rfl) | rfl <;>
    exact absurd h (by decide)

theorem allowed_of_mem_sanitizeChars (l : List Char) :
    ∀ c ∈ sanitizeChars l, allowedChar c = true := by
  intro c hc
  unfold sanitizeChars at hc
  by_cases hempty : stripChars l = []
  · rw [if_pos hempty] at hc
    have hall : ∀ d ∈ "app.py".data, allowedChar d = true := by decide
    exact hall c hc
  · rw [if_neg hempty] at hc
    have hmap : ∀ d ∈ (stripChars l).map (fun c => if allowedChar c then c else '_'),
        allowedChar d = true := by
      intro d hd
      obtain ⟨a, _, rfl⟩ := List.mem_map.mp hd
      by_cases ha : allowedChar a
      · rwa [if_pos ha]
      · rw [if_neg ha]; decide
    split at hc
    · exact hmap c hc
    · rcases List.mem_append.mp hc with h1 | h2
      · exact hmap c h1
      · have hall : ∀ d ∈ ".py".data, allowedChar d = true := by decide
        exact hall c h2

theorem py_suffix_sanitizeChars (l : List Char) :
    ".py".data <:+ sanitizeChars l := by
  unfold sanitizeChars
  by_cases hempty : stripChars l = []
  · rw [if_pos hempty]
    exact ⟨['a', 'p', 'p'], rfl⟩
  · rw [if_neg hempty]
    split
    · assumption
    · exact List.suffix_append _ _

theorem sanitizeChars_ne_nil (l : List Char) : sanitizeChars l ≠ [] := by
  obtain ⟨t, ht⟩ := py_suffix_sanitizeChars l
  intro hnil
  rw [hnil] at ht
  exact absurd (List.append_eq_nil.mp ht).2 (by decide)

theorem map_allowed_id {l : List Char} (h : ∀ c ∈ l, allowedChar c = true) :
    l.map (fun c => if allowedChar c then c else '_') = l := by
  induction l with
  | nil => rfl
  | cons a t ih =>
    rw [List.map_cons, if_pos (h a (List.mem_cons_self a t)),
      ih (fun c hc => h c (List.mem_cons_of_mem a hc))]

theorem sanitizeChars_eq_self {m : List Char} (h1 : stripChars m = m)
    (h2 : m ≠ []) (h3 : ∀ c ∈ m, allowedChar c = true)
    (h4 : ".py".data <:+ m) : sanitizeChars m = m := by
  unfold sanitizeChars
  rw [h1, if_neg h2, map_allowed_id h3, if_pos h4]

theorem sanitizeChars_idem (l : List Char) :
    sanitizeChars (sanitizeChars l) = sanitizeChars l :=
  sanitizeChars_eq_self
    (stripChars_eq_self_of_all
      (fun c hc => allowedChar_not_ws (allowed_of_mem_sanitizeChars l c hc)))
    (sanitizeChars_ne_nil l)
    (allowed_of_mem_sanitizeChars l)
    (py_suffix_sanitizeChars l)

/-! ## Lemmas about the filesystem model -/

theorem fsRead_fsWrite_self (fs : FS) (p c : String) :
    fsRead (fsWrite fs p c) p = some c := by
  simp [fsRead, fsWrite, List.find?]

theorem fsRead_fsWrite_ne (fs : FS) {p q : String} (c : String) (h : p ≠ q) :
    fsRead (fsWrite fs q c) p = fsRead fs p := by
  unfold fsRead fsWrite
  rw [List.find?_cons_of_neg _ (by simp [Ne.symm h])]

theorem fsRead_fsRemove_self (fs : FS) (p : String) :
    fsRead (fsRemove fs p) p = none := by
  unfold fsRead fsRemove
  induction fs with
  | nil => rfl
  | cons e t ih =>
    rw [List.filter_cons]
    by_cases he : e.1 = p
    · rw [if_neg (by simp [he])]
      exact ih
    · rw [if_pos (by simp [he]), List.find?_cons_of_neg _ (by simp [he])]
      exact ih

theorem fsRead_fsRemove_ne (fs : FS) {p q : String} (h : p ≠ q) :
    fsRead (fsRemove fs q) p = fsRead fs p := by
  unfold fsRead fsRemove
  induction fs with
  | nil => rfl
  | cons e t ih =>
    rw [List.filter_cons]
    by_cases he : e.1 = q
    · rw [if_neg (by simp [he]),
        List.find?_cons_of_neg _ (by simp [he, Ne.symm h])]
      exact ih
    · by_cases hp : e.1 = p
      · rw [if_pos (by simp [he]), List.find?_cons_of_pos _ (by simp [hp]),
          List.find?_cons_of_pos _ (by simp [hp])]
      · rw [if_pos (by simp [he]), List.find?_cons_of_neg _ (by simp [hp]),
          List.find?_cons_of_neg _ (by simp [hp])]
        exact ih

/-! ## Lemmas about timestamp formatting -/

theorem digitChar_inj_mod {a b : Nat} (h : digitChar a = digitChar b) :
    a % 10 = b % 10 := by
  have bounded : ∀ a < 10, ∀ b < 10, digitChar a = digitChar b → a = b := by decide
  have ea : digitChar (a % 10) = digitChar a := by
    unfold digitChar
    exact congrArg Char.ofNat (by omega)
  have eb : digitChar (b % 10) = digitChar b := by
    unfold digitChar
    exact congrArg Char.ofNat (by omega)
  exact bounded (a % 10) (Nat.mod_lt a (by omega)) (b % 10) (Nat.mod_lt b (by omega))
    (by rw [ea, eb, h])

theorem padDigits_length (w n : Nat) : (padDigits w n).length = w := by
  induction w generalizing n with
  | zero => rfl
  | succ w ih => simp [padDigits, ih]

theorem padDigits_inj_mod :
    ∀ (w n m : Nat), padDigits w n = padDigits w m → n % 10 ^ w = m % 10 ^ w := by
  intro w
  induction w with
  | zero => intro n m _; omega
  | succ w ih =>
    intro n m h
    simp only [padDigits] at h
    injection h with h1 h2
    have hd := digitChar_inj_mod h1
    have ht := ih n m h2
    have e1 : n % 10 ^ (w + 1) = n % 10 ^ w + 10 ^ w * (n / 10 ^ w % 10) := by
      rw [pow_succ]
      exact Nat.mod_mul
    have e2 : m % 10 ^ (w + 1) = m % 10 ^ w + 10 ^ w * (m / 10 ^ w % 10) := by
      rw [pow_succ]
      exact Nat.mod_mul
    rw [e1, e2, hd, ht]

theorem strftime_inj {t₁ t₂ : Timestamp} (h₁ : t₁.Valid) (h₂ : t₂.Valid)
    (h : strftime t₁ = strftime t₂) : t₁ = t₂ := by
  obtain ⟨hy₁, hmo₁, hd₁, hh₁, hmi₁, hs₁⟩ := h₁
  obtain ⟨hy₂, hmo₂, hd₂, hh₂, hmi₂, hs₂⟩ := h₂
  have hdata := congrArg String.data h
  simp only [strftime, List.append_assoc] at hdata
  have fieldEq : ∀ w a b : Nat, a < 10 ^ w → b < 10 ^ w →
      padDigits w a = padDigits w b → a = b := by
    intro w a b ha hb hab
    have := padDigits_inj_mod w a b hab
    rwa [Nat.mod_eq_of_lt ha, Nat.mod_eq_of_lt hb] at this
  obtain ⟨ey, hdata⟩ := List.append_inj hdata (by rw [padDigits_length, padDigits_length])
  obtain ⟨emo, hdata⟩ := List.append_inj hdata (by rw [padDigits_length, padDigits_length])
  obtain ⟨ed, hdata⟩ := List.append_inj hdata (by rw [padDigits_length, padDigits_length])
  obtain ⟨-, hdata⟩ := List.append_inj hdata rfl
  obtain ⟨eh, hdata⟩ := List.append_inj hdata (by rw [padDigits_length, padDigits_length])
  obtain ⟨emi, es⟩ := List.append_inj hdata (by rw [padDigits_length, padDigits_length])
  obtain ⟨y₁, mo₁, d₁, hh₁', mi₁, s₁⟩ := t₁
  obtain ⟨y₂, mo₂, d₂, hh₂', mi₂, s₂⟩ := t₂
  simp only [Timestamp.mk.injEq]
  exact ⟨fieldEq 4 _ _ (by norm_num at hy₁ ⊢; exact hy₁) (by norm_num at hy₂ ⊢; exact hy₂) ey,
    fieldEq 2 _ _ (by norm_num at hmo₁ ⊢; exact hmo₁) (by norm_num at hmo₂ ⊢; exact hmo₂) emo,
    fieldEq 2 _ _ (by norm_num at hd₁ ⊢; exact hd₁) (by norm_num at hd₂ ⊢; exact hd₂) ed,
    fieldEq 2 _ _ (by norm_num at hh₁ ⊢; exact hh₁) (by norm_num at hh₂ ⊢; exact hh₂) eh,
    fieldEq 2 _ _ (by norm_num at hmi₁ ⊢; exact hmi₁) (by norm_num at hmi₂ ⊢; exact hmi₂) emi,
    fieldEq 2 _ _ (by norm_num at hs₁ ⊢; exact hs₁) (by norm_num at hs₂ ⊢; exact hs₂) es⟩

theorem strftime_length (t : Timestamp) : (strftime t).length = 15 := by
  simp [strftime, String.length, padDigits_length]

theorem digitChar_mod (a : Nat) : digitChar (a % 10) = digitChar a := by
  unfold digitChar
  exact congrArg Char.ofNat (by omega)

theorem savePath_ts_inj {ts₁ ts₂ n₁ n₂ : String} (hlen : ts₁.length = ts₂.length)
    (h : savePath ts₁ n₁ = savePath ts₂ n₂) : ts₁ = ts₂ := by
  have hd := congrArg String.data h
  simp only [savePath, joinPath, PROJECTS_DIR, String.data_append,
    List.append_assoc] at hd
  have h1 := List.append_cancel_left hd
  have h2 := List.append_cancel_left h1
  exact String.ext (List.append_inj h2 hlen).1

theorem savePath_ne_tempPath (t : Timestamp) (n a : String) :
    savePath (strftime t) n ≠ tempPath a := by
  intro h
  have hd := congrArg String.data h
  simp only [savePath, tempPath, joinPath, PROJECTS_DIR, String.data_append,
    List.append_assoc] at hd
  have h1 := List.append_cancel_left hd
  have h2 := List.append_cancel_left h1
  have hs : (strftime t).data =
      digitChar (t.year / 10 ^ 3) :: (padDigits 3 t.year ++ (padDigits 2 t.month ++
        (padDigits 2 t.day ++ ('_' :: (padDigits 2 t.hour ++ (padDigits 2 t.minute ++
          padDigits 2 t.second)))))) := rfl
  rw [hs] at h2
  simp only [List.cons_append, List.append_assoc] at h2
  have hhead : digitChar (t.year / 10 ^ 3) = 't' := (List.cons.injEq _ _ _ _ ▸ h2).1
  have hne : ∀ d < 10, digitChar d ≠ 't' := by decide
  exact hne (t.year / 10 ^ 3 % 10) (by omega) (by rw [digitChar_mod]; exact hhead)

/-! ## Claim theorems -/

/-- C2: for every input string `n`, `sanitize(n)` contains only characters
from {letters, digits, underscore, hyphen, dot} and ends with the required
extension `.py`; if `n` is empty or whitespace-only, `sanitize(n)` is the
fixed default `app.py`; otherwise whitespace is stripped, every character
outside the allowed set becomes an underscore, and `.py` is appended only
when not already present. -/
theorem sanitize_filename_spec (n : String) :
    (∀ c ∈ (sanitize_filename n).data, allowedChar c = true) ∧
    ".py".data <:+ (sanitize_filename n).data ∧
    (pyStrip n = "" → sanitize_filename n = "app.py") ∧
    (pyStrip n ≠ "" → (sanitize_filename n).data =
      (if ".py".data <:+ (pyStrip n).data.map (fun c => if allowedChar c then c else '_')
       then (pyStrip n).data.map (fun c => if allowedChar c then c else '_')
       else (pyStrip n).data.map (fun c => if allowedChar c then c else '_') ++ ".py".data)) := by
  refine ⟨allowed_of_mem_sanitizeChars n.data, py_suffix_sanitizeChars n.data, ?_, ?_⟩
  · intro h
    have hnil : stripChars n.data = [] := congrArg String.data h
    apply String.ext
    show sanitizeChars n.data = "app.py".data
    unfold sanitizeChars
    rw [if_pos hnil]
  · intro h
    have hnil : stripChars n.data ≠ [] := fun hc => h (String.ext hc)
    show sanitizeChars n.data = _
    unfold sanitizeChars
    rw [if_neg hnil]
    rfl

/-- C2 witness: the general theorem evaluated at the concrete inputs
`"my file!"` (non-blank) and `"   "` (whitespace-only). -/
theorem sanitize_filename_spec_witness :
    (∀ c ∈ (sanitize_filename "my file!").data, allowedChar c = true) ∧
    ".py".data <:+ (sanitize_filename "my file!").data ∧
    sanitize_filename "   " = "app.py" ∧
    (sanitize_filename "my file!").data =
      (if ".py".data <:+ (pyStrip "my file!").data.map (fun c => if allowedChar c then c else '_')
       then (pyStrip "my file!").data.map (fun c => if allowedChar c then c else '_')
       else (pyStrip "my file!").data.map (fun c => if allowedChar c then c else '_') ++ ".py".data) :=
  ⟨(sanitize_filename_spec "my file!").1,
   (sanitize_filename_spec "my file!").2.1,
   (sanitize_filename_spec "   ").2.2.1 (by decide),
   (sanitize_filename_spec "my file!").2.2.2 (by decide)⟩

/-- C10: the filename sanitizer is idempotent:
`sanitize(sanitize(n)) = sanitize(n)` for every input string `n`. -/
theorem sanitize_filename_idempotent (n : String) :
    sanitize_filename (sanitize_filename n) = sanitize_filename n := by
  apply String.ext
  show sanitizeChars (sanitizeChars n.data) = sanitizeChars n.data
  exact sanitizeChars_idem n.data

/-- C3: a successful save writes the content to the returned path, so
reading the file at the returned path immediately afterwards yields
exactly the saved content. -/
theorem save_text_roundtrip (fs : FS) (ts content name : String) :
    fsRead (save_text fs ts content name).fs (save_text fs ts content name).path =
      some content :=
  fsRead_fsWrite_self fs (savePath ts name) content

/-- C9: two saves whose second-precision timestamps differ return
distinct paths; two saves within the same second with the same
sanitized name return the same path, and the second write silently
overwrites the first. -/
theorem save_text_collision (fs₁ fs₂ : FS) (c₁ c₂ n₁ n₂ : String)
    (t₁ t₂ : Timestamp) (h₁ : t₁.Valid) (h₂ : t₂.Valid) :
    (t₁ ≠ t₂ →
      (save_text fs₁ (strftime t₁) c₁ n₁).path ≠
        (save_text fs₂ (strftime t₂) c₂ n₂).path) ∧
    (sanitize_filename n₁ = sanitize_filename n₂ →
      (save_text fs₁ (strftime t₁) c₁ n₁).path =
        (save_text fs₁ (strftime t₁) c₂ n₂).path ∧
      fsRead (save_text (save_text fs₁ (strftime t₁) c₁ n₁).fs (strftime t₁) c₂ n₂).fs
        (save_text fs₁ (strftime t₁) c₁ n₁).path = some c₂) := by
  constructor
  · intro hne hpath
    have hts : strftime t₁ = strftime t₂ :=
      savePath_ts_inj (by rw [strftime_length, strftime_length]) hpath
    exact hne (strftime_inj h₁ h₂ hts)
  · intro hsan
    have hpath : (save_text fs₁ (strftime t₁) c₁ n₁).path =
        (save_text fs₁ (strftime t₁) c₂ n₂).path := by
      show savePath (strftime t₁) n₁ = savePath (strftime t₁) n₂
      unfold savePath
      rw [hsan]
    refine ⟨hpath, ?_⟩
    rw [hpath]
    exact fsRead_fsWrite_self _ _ c₂

/-- C9 witness: the theorem at two concrete timestamps one second apart
and at two same-second saves of the name `app`. -/
theorem save_text_collision_witness :
    ((save_text [] (strftime ⟨2025, 1, 1, 0, 0, 0⟩) "a" "app").path ≠
      (save_text [] (strftime ⟨2025, 1, 1, 0, 0, 1⟩) "b" "app").path) ∧
    ((save_text [] (strftime ⟨2025, 1, 1, 0, 0, 0⟩) "a" "app").path =
      (save_text [] (strftime ⟨2025, 1, 1, 0, 0, 0⟩) "b" "app").path ∧
     fsRead (save_text (save_text [] (strftime ⟨2025, 1, 1, 0, 0, 0⟩) "a" "app").fs
         (strftime ⟨2025, 1, 1, 0, 0, 0⟩) "b" "app").fs
       (save_text [] (strftime ⟨2025, 1, 1, 0, 0, 0⟩) "a" "app").path = some "b") :=
  ⟨(save_text_collision [] [] "a" "b" "app" "app" ⟨2025, 1, 1, 0, 0, 0⟩
      ⟨2025, 1, 1, 0, 0, 1⟩ (by decide) (by decide)).1 (by decide),
   (save_text_collision [] [] "a" "b" "app" "app" ⟨2025, 1, 1, 0, 0, 0⟩
      ⟨2025, 1, 1, 0, 0, 0⟩ (by decide) (by decide)).2 rfl⟩

/-- C1: a failed completion call raises nothing — `ask_model` returns the
marked error string, which begins with the warning marker and contains
the error text — and the Build pipeline still persists that string as a
non-empty artifact and appends exactly one HistoryRecord whose artifact
content begins with the warning marker. -/
theorem build_persists_completion_failure (st : AppState)
    (prompt filename e ts time : String) (hprompt : pyStrip prompt ≠ "") :
    ask_model (.err e) = "⚠️ Error: " ++ e ∧
    "⚠️ Error: ".data <+: (ask_model (.err e)).data ∧
    e.data <:+ (ask_model (.err e)).data ∧
    ask_model (.err e) ≠ "" ∧
    (tab_build st prompt filename (.err e) ts time none).1.history =
      st.history ++ [⟨"Build Code", prompt, filename, savePath ts filename, time⟩] ∧
    fsRead (tab_build st prompt filename (.err e) ts time none).1.fs
      (savePath ts filename) = some (ask_model (.err e)) := by
  have hbuild : tab_build st prompt filename (.err e) ts time none =
      (⟨fsWrite st.fs (savePath ts filename) (ask_model (.err e)),
        st.history ++ [⟨"Build Code", prompt, filename, savePath ts filename, time⟩]⟩,
       .done (ask_model (.err e)) (savePath ts filename)) := by
    simp [tab_build, hprompt, save_text]
  refine ⟨rfl, ?_, ?_, ?_, ?_, ?_⟩
  · show ("⚠️ Error: " : String).data <+: (("⚠️ Error: " ++ e) : String).data
    rw [String.data_append]
    exact List.prefix_append _ _
  · show e.data <:+ (("⚠️ Error: " ++ e) : String).data
    rw [String.data_append]
    exact List.suffix_append _ _
  · show ("⚠️ Error: " ++ e : String) ≠ ""
    intro hc
    have := congrArg String.data hc
    rw [String.data_append] at this
    simp at this
  · rw [hbuild]
  · rw [hbuild]
    exact fsRead_fsWrite_self _ _ _

/-- C1 witness: the theorem at a concrete non-blank prompt and a
concrete simulated network error. -/
theorem build_persists_completion_failure_witness :
    ask_model (.err "network down") = "⚠️ Error: network down" ∧
    "⚠️ Error: ".data <+: (ask_model (.err "network down")).data ∧
    "network down".data <:+ (ask_model (.err "network down")).data ∧
    ask_model (.err "network down") ≠ "" ∧
    (tab_build ⟨[], []⟩ "make an app" "app.py" (.err "network down")
        "20250101_000000" "2025-01-01 00:00:00" none).1.history =
      [] ++ [⟨"Build Code", "make an app", "app.py",
        savePath "20250101_000000" "app.py", "2025-01-01 00:00:00"⟩] ∧
    fsRead (tab_build ⟨[], []⟩ "make an app" "app.py" (.err "network down")
        "20250101_000000" "2025-01-01 00:00:00" none).1.fs
      (savePath "20250101_000000" "app.py") = some (ask_model (.err "network down")) :=
  build_persists_completion_failure ⟨[], []⟩ "make an app" "app.py" "network down"
    "20250101_000000" "2025-01-01 00:00:00" (by decide)

/-- C4: a Build, Modify, or Edit run whose primary text input is blank is
rejected with the mode-specific warning naming the missing field, the
state (artifacts and history) is unchanged, and the remote completion
outcome is never consulted. -/
theorem empty_input_rejected (st : AppState) (x y f : String)
    (r r' : RemoteResult) (ts time : String) (se : Option String) :
    (pyStrip x = "" →
      tab_build st x f r ts time se = (st, .rejected "Please describe what to build.") ∧
      tab_build st x f r ts time se = tab_build st x f r' ts time se) ∧
    (pyStrip x = "" →
      tab_modify st x y f r ts time se =
        (st, .rejected "Please paste the code to modify.") ∧
      tab_modify st x y f r ts time se = tab_modify st x y f r' ts time se) ∧
    (pyStrip x ≠ "" → pyStrip y = "" →
      tab_modify st x y f r ts time se =
        (st, .rejected "Please describe the changes you want.") ∧
      tab_modify st x y f r ts time se = tab_modify st x y f r' ts time se) ∧
    (pyStrip x = "" →
      tab_edit st x y f r ts time se =
        (st, .rejected "Please paste the content to edit.") ∧
      tab_edit st x y f r ts time se = tab_edit st x y f r' ts time se) ∧
    (pyStrip x ≠ "" → pyStrip y = "" →
      tab_edit st x y f r ts time se =
        (st, .rejected "Please describe the edit you want.") ∧
      tab_edit st x y f r ts time se = tab_edit st x y f r' ts time se) := by
  refine ⟨fun hx => ?_, fun hx => ?_, fun hx hy => ?_, fun hx => ?_, fun hx hy => ?_⟩ <;>
    constructor <;> simp [tab_build, tab_modify, tab_edit, hx]
  · simp [hy]
  · simp [hy]
  · simp [hy]
  · simp [hy]

/-- C4 witness: the theorem at a blank Build prompt, a blank Modify
base-code field, and a blank Modify/Edit request field. -/
theorem empty_input_rejected_witness :
    (tab_build ⟨[], []⟩ " " "f.py" (.ok "x") "ts" "tm" none =
      (⟨[], []⟩, .rejected "Please describe what to build.") ∧
      tab_build ⟨[], []⟩ " " "f.py" (.ok "x") "ts" "tm" none =
        tab_build ⟨[], []⟩ " " "f.py" (.err "boom") "ts" "tm" none) ∧
    (tab_modify ⟨[], []⟩ "code" " " "f.py" (.ok "x") "ts" "tm" none =
      (⟨[], []⟩, .rejected "Please describe the changes you want.") ∧
      tab_modify ⟨[], []⟩ "code" " " "f.py" (.ok "x") "ts" "tm" none =
        tab_modify ⟨[], []⟩ "code" " " "f.py" (.err "boom") "ts" "tm" none) ∧
    (tab_edit ⟨[], []⟩ " " "req" "f.py" (.ok "x") "ts" "tm" none =
      (⟨[], []⟩, .rejected "Please paste the content to edit.") ∧
      tab_edit ⟨[], []⟩ " " "req" "f.py" (.ok "x") "ts" "tm" none =
        tab_edit ⟨[], []⟩ " " "req" "f.py" (.err "boom") "ts" "tm" none) :=
  ⟨(empty_input_rejected ⟨[], []⟩ " " "y" "f.py" (.ok "x") (.err "boom") "ts" "tm" none).1
      (by decide),
   (empty_input_rejected ⟨[], []⟩ "code" " " "f.py" (.ok "x") (.err "boom") "ts" "tm" none).2.2.1
      (by decide) (by decide),
   (empty_input_rejected ⟨[], []⟩ " " "req" "f.py" (.ok "x") (.err "boom") "ts" "tm" none).2.2.2.1
      (by decide)⟩

/-- C5: when the save step raises a filesystem error, every pipeline
surfaces a visible error and appends no HistoryRecord: the session
history is exactly what it was before the run. -/
theorem save_failure_preserves_history (st : AppState)
    (x y f q an ab tr e : String) (r : RemoteResult) (ts time : String)
    (rf : Bool) (hx : pyStrip x ≠ "") (hy : pyStrip y ≠ "")
    (hq : pyStrip q ≠ "") (hf : pyStrip f ≠ "") :
    tab_build st x f r ts time (some e) =
      (st, .failed ("❌ Failed to save file: " ++ e)) ∧
    tab_modify st x y f r ts time (some e) =
      (st, .failed ("❌ Failed to save file: " ++ e)) ∧
    tab_edit st x y f r ts time (some e) =
      (st, .failed ("❌ Failed to save edited content: " ++ e)) ∧
    tab_ask st q f r ts time (some e) =
      (st, .failed ("❌ Failed to save answer: " ++ e)) ∧
    (tab_voice st (some (an, ab)) f (.ok tr) r ts time (some e) rf).1.history =
      st.history ∧
    (tab_voice st (some (an, ab)) f (.ok tr) r ts time (some e) rf).2 =
      .failed ("❌ Voice processing failed: " ++ e) := by
  refine ⟨?_, ?_, ?_, ?_, ?_, ?_⟩ <;>
    simp [tab_build, tab_modify, tab_edit, tab_ask, tab_voice, hx, hy, hq, hf]

/-- C5 witness: the theorem at concrete non-blank inputs and a concrete
disk-full error. -/
theorem save_failure_preserves_history_witness :
    tab_build ⟨[], []⟩ "p" "f.py" (.ok "x") "ts" "tm" (some "disk full") =
      (⟨[], []⟩, .failed ("❌ Failed to save file: " ++ "disk full")) ∧
    tab_modify ⟨[], []⟩ "p" "q" "f.py" (.ok "x") "ts" "tm" (some "disk full") =
      (⟨[], []⟩, .failed ("❌ Failed to save file: " ++ "disk full")) ∧
    tab_edit ⟨[], []⟩ "p" "q" "f.py" (.ok "x") "ts" "tm" (some "disk full") =
      (⟨[], []⟩, .failed ("❌ Failed to save edited content: " ++ "disk full")) ∧
    tab_ask ⟨[], []⟩ "w" "f.py" (.ok "x") "ts" "tm" (some "disk full") =
      (⟨[], []⟩, .failed ("❌ Failed to save answer: " ++ "disk full")) ∧
    (tab_voice ⟨[], []⟩ (some ("a.mp3", "B")) "f.py" (.ok "hi") (.ok "x") "ts" "tm"
        (some "disk full") false).1.history = ([] : List HistoryRecord) ∧
    (tab_voice ⟨[], []⟩ (some ("a.mp3", "B")) "f.py" (.ok "hi") (.ok "x") "ts" "tm"
        (some "disk full") false).2 =
      .failed ("❌ Voice processing failed: " ++ "disk full") :=
  save_failure_preserves_history ⟨[], []⟩ "p" "q" "f.py" "w" "a.mp3" "B" "hi"
    "disk full" (.ok "x") "ts" "tm" false (by decide) (by decide) (by decide) (by decide)

/-- C6: an Ask run with a non-empty question and a blank target filename
displays the answer but skips both the save and the history append: the
state is unchanged, so zero artifacts are created and zero
HistoryRecords are added. -/
theorem ask_blank_filename_skips_persistence (st : AppState) (q f : String)
    (r : RemoteResult) (ts time : String) (se : Option String)
    (hq : pyStrip q ≠ "") (hf : pyStrip f = "") :
    tab_ask st q f r ts time se = (st, .shownOnly (ask_model r)) := by
  simp [tab_ask, hq, hf]

/-- C6 witness: the theorem at a concrete question and a whitespace-only
filename. -/
theorem ask_blank_filename_skips_persistence_witness :
    tab_ask ⟨[], []⟩ "what time is it" "  " (.ok "noon") "ts" "tm" none =
      (⟨[], []⟩, .shownOnly (ask_model (.ok "noon"))) :=
  ask_blank_filename_skips_persistence ⟨[], []⟩ "what time is it" "  " (.ok "noon")
    "ts" "tm" none (by decide) (by decide)

/-- C7: a successful Voice run with transcript `t` and completion reply
`r` persists exactly the literal concatenation
`"Transcript:\n" ++ t ++ "\n\nResponse:\n" ++ r` at the returned path
(the run's transcript and reply are the stripped remote texts). -/
theorem voice_artifact_content (st : AppState) (an ab tr rep f5 time : String)
    (t : Timestamp) :
    (tab_voice st (some (an, ab)) f5 (.ok tr) (.ok rep) (strftime t) time
        none false).2 =
      .done ("Transcript:\n" ++ pyStrip tr ++ "\n\nResponse:\n" ++ pyStrip rep)
        (savePath (strftime t) f5) ∧
    fsRead (tab_voice st (some (an, ab)) f5 (.ok tr) (.ok rep) (strftime t) time
        none false).1.fs (savePath (strftime t) f5) =
      some ("Transcript:\n" ++ pyStrip tr ++ "\n\nResponse:\n" ++ pyStrip rep) := by
  constructor
  · simp [tab_voice, ask_model, save_text]
  · show fsRead (fsRemove (fsWrite (fsWrite st.fs (tempPath an) ab)
        (savePath (strftime t) f5)
        ("Transcript:\n" ++ pyStrip tr ++ "\n\nResponse:\n" ++ pyStrip rep))
        (tempPath an)) (savePath (strftime t) f5) = _
    rw [fsRead_fsRemove_ne _ (savePath_ne_tempPath t f5 an), fsRead_fsWrite_self]

/-- C8 counterexample: a Voice run whose transcription call fails ends
with the temporary audio copy still on disk — deletion is not attempted
when a later step fails, contrary to the claim. -/
theorem voice_temp_file_counterexample :
    (tab_voice ⟨[], []⟩ (some ("a.mp3", "AUDIO")) "t.txt" (.error "network down")
        (.ok "x") "20250101_000000" "tm" none false).2 =
      .failed "❌ Voice processing failed: network down" ∧
    fsRead (tab_voice ⟨[], []⟩ (some ("a.mp3", "AUDIO")) "t.txt" (.error "network down")
        (.ok "x") "20250101_000000" "tm" none false).1.fs
      (tempPath "a.mp3") = some "AUDIO" :=
  ⟨rfl, rfl⟩

/-- C8 (amended): deletion of the temporary audio copy is attempted only
after transcription, completion and persistence all succeed — then the
copy is gone from disk — while a transcription or persistence failure
leaves the temporary copy on disk (and a deletion failure itself is
silently ignored). -/
theorem voice_temp_cleanup_after_success_only (st : AppState)
    (an ab f5 tr e : String) (rem : RemoteResult) (ts time : String) :
    fsRead (tab_voice st (some (an, ab)) f5 (.ok tr) rem ts time none false).1.fs
      (tempPath an) = none ∧
    fsRead (tab_voice st (some (an, ab)) f5 (.error e) rem ts time none false).1.fs
      (tempPath an) = some ab ∧
    fsRead (tab_voice st (some (an, ab)) f5 (.ok tr) rem ts time (some e) false).1.fs
      (tempPath an) = some ab := by
  refine ⟨?_, ?_, ?_⟩
  · show fsRead (fsRemove _ (tempPath an)) (tempPath an) = none
    exact fsRead_fsRemove_self _ _
  · exact fsRead_fsWrite_self _ _ _
  · exact fsRead_fsWrite_self _ _ _

end Spyce
